import Mathlib

/-!
Shallow embedding of the Shmoopland text-adventure core
(src/shmoopland: ai_utils.py, npc.py, crafting.py, skills.py, base_game.py),
together with proofs settling the frozen claims about the command
interpretation and world-state mutation pipeline.

Modelling conventions:
* Python dicts become association lists (List (String × α)); dict lookup is
  List.lookup, dict assignment at an existing key is an in-place value update.
* Python sets become duplicate-free lists with an insert-if-absent operation.
* Python floats become rationals (ℚ); the claims proved about them concern
  only order/clamping facts that are insensitive to that choice.
* Fallible dict subscripts, sys.exit and undefined attributes are modelled by
  an explicit Outcome value (ok messages / raised exception / SystemExit),
  with the returned state being the state at the moment the exception is
  raised, matching Python's in-place mutation.
* The external spaCy/TextBlob backend is a parameter (NlpBackend): a
  function from text to a token/entity document plus a polarity score.
  GameAI.nlp = none models the backend-absent (OSError) case.
-/

namespace Shmoopland

/-- Insert into a Python set modelled as a duplicate-free list (set.add). -/
def setAdd (l : List String) (x : String) : List String :=
  if x ∈ l then l else l ++ [x]

/-- Update the value stored at key k of a dict modelled as an association
list; bindings for other keys are unchanged (d[k] = v at an existing key). -/
def updateAssoc {α : Type} (l : List (String × α)) (k : String) (v : α) :
    List (String × α) :=
  l.map (fun p => if p.1 = k then (k, v) else p)

/-- ASCII lowercase of one character (Python str.lower on the ASCII
commands the game handles). -/
def lowerChar (c : Char) : Char :=
  if 'A' ≤ c ∧ c ≤ 'Z' then Char.ofNat (c.toNat + 32) else c

/-- Python str.lower(), character by character. -/
def strToLower (s : String) : String :=
  ⟨s.data.map lowerChar⟩

/-- Python str.isspace for the separators str.split() breaks on. -/
def isSpaceChar (c : Char) : Bool :=
  c = ' ' ∨ c = '\t' ∨ c = '\n' ∨ c = '\r'

/-- Helper for splitWs: accumulate the current word (reversed). -/
def splitWsAux : List Char → List Char → List String
  | [], cur => if cur = [] then [] else [⟨cur.reverse⟩]
  | c :: rest, cur =>
    if isSpaceChar c then
      (if cur = [] then [] else [⟨cur.reverse⟩]) ++ splitWsAux rest []
    else splitWsAux rest (c :: cur)

/-- Python str.split() with no argument: whitespace-separated tokens, no
empties. -/
def splitWs (s : String) : List String :=
  splitWsAux s.data []

/-- Python " ".join(args). -/
def joinWords (ws : List String) : String :=
  String.intercalate " " ws

/-! ## ai_utils.py — GameAI -/

/-- One spaCy token: surface text, lemma, coarse POS tag, dependency label. -/
structure Token where
  text : String
  lemma_ : String
  pos : String
  dep : String
deriving DecidableEq

/-- One spaCy document: its tokens and its named-entity spans. -/
structure NlpDoc where
  tokens : List Token
  ents : List String
deriving DecidableEq

/-- The external linguistic backend (spaCy pipeline + TextBlob sentiment),
a parameter of the embedding: `pipeline` is what nlp(text) returns and
`polarity` is TextBlob(text).sentiment.polarity. -/
structure NlpBackend where
  pipeline : String → NlpDoc
  polarity : String → ℚ

/-- The analyzer's output record (ai_utils.analyze_command's dict). -/
structure Analysis where
  intent : String
  objects : List String
  action : Option String
  sentiment : ℚ
  entities : List String
  topic : String
deriving DecidableEq

/-- GameAI state: the (possibly absent) backend and the response cache.
Python keeps one dict keyed by disjoint prefixes "cmd_" and "desc_"; it is
modelled as two lists preserving that partition.  generate_description's
wholesale clear empties both, as in the source. -/
structure GameAI where
  nlp : Option NlpBackend
  cmdCache : List (String × Analysis)
  descCache : List (String × String)

/-- The closed verb-lemma mapping of GameAI._extract_intent. -/
def intent_mapping : List (String × String) :=
  [("look", "examine"), ("go", "move"), ("take", "acquire"),
   ("drop", "discard"), ("talk", "interact"), ("help", "assist")]

/-- GameAI._extract_intent: lemma of the first VERB token through the
mapping; an unmapped verb maps to itself; no verb gives "unknown". -/
def extract_intent (tokens : List Token) : String :=
  let verbs := (tokens.filter (fun t => t.pos = "VERB")).map (fun t => t.lemma_)
  match verbs with
  | [] => "unknown"
  | v :: _ => (List.lookup v intent_mapping).getD v

/-- Keyword sets of GameAI._extract_topic, in source enumeration order. -/
def topic_keywords : List (String × List String) :=
  [("magic", ["magic", "spell", "enchant", "potion"]),
   ("items", ["item", "object", "thing", "artifact"]),
   ("trade", ["buy", "sell", "trade", "price"]),
   ("quest", ["quest", "mission", "task", "help"]),
   ("combat", ["fight", "attack", "defend", "battle"])]

/-- Whether the first char list is a prefix of the second, as a Bool. -/
def startsWithChars : List Char → List Char → Bool
  | [], _ => true
  | _ :: _, [] => false
  | a :: as, b :: bs => a == b && startsWithChars as bs

/-- Whether the first char list occurs inside the second. -/
def containsChars : List Char → List Char → Bool
  | pat, [] => startsWithChars pat []
  | pat, c :: rest => startsWithChars pat (c :: rest) || containsChars pat rest

/-- Substring occurrence test (Python "kw in text"). -/
def strContains (text kw : String) : Bool :=
  containsChars kw.data text.data

/-- GameAI._extract_topic over the lowercased input text: first category
one of whose keywords occurs as a substring, else "general". -/
def extract_topic (text : String) : String :=
  match topic_keywords.find? (fun p => p.2.any (fun kw => strContains text kw)) with
  | some p => p.1
  | none => "general"

/-- GameAI.analyze_command.  Returns the analysis, the updated GameAI state
and whether the linguistic backend pipeline was invoked on this call. -/
def analyze_command (ai : GameAI) (command : String) :
    Analysis × GameAI × Bool :=
  let key := "cmd_" ++ command
  match List.lookup key ai.cmdCache with
  | some a => (a, ai, false)
  | none =>
    match ai.nlp with
    | none =>
      let words := splitWs (strToLower command)
      let analysis : Analysis :=
        { intent := "unknown"
          objects := words.drop 1
          action := words.head?
          sentiment := 0
          entities := []
          topic := "general" }
      (analysis, { ai with cmdCache := (key, analysis) :: ai.cmdCache }, false)
    | some backend =>
      let doc := backend.pipeline (strToLower command)
      let analysis : Analysis :=
        { intent := extract_intent doc.tokens
          objects := (doc.tokens.filter
            (fun t => t.dep = "dobj" ∨ t.dep = "pobj")).map (fun t => t.text)
          action := ((doc.tokens.filter (fun t => t.pos = "VERB")).map
            (fun t => t.text)).head?
          sentiment := backend.polarity command
          entities := doc.ents
          topic := extract_topic (strToLower command) }
      (analysis, { ai with cmdCache := (key, analysis) :: ai.cmdCache }, true)

/-- Deterministic stand-in for hash(frozenset(context.items())) in
generate_description's cache key; the claims never depend on key clashes. -/
def ctxKey (ctx : List (String × String)) : String :=
  String.intercalate "," (ctx.map (fun p => p.1 ++ "=" ++ p.2))

/-- Python context.get(k) over the context dict. -/
def ctxGet (ctx : List (String × String)) (k : String) : Option String :=
  List.lookup k ctx

/-- GameAI.generate_description: cached, context-aware text rewriting.
The backend branch clears the whole response cache once it exceeds 100
entries, as in the source; the backend-absent branch returns early. -/
def generate_description (ai : GameAI) (base : String)
    (ctx : List (String × String)) : String × GameAI :=
  let key := "desc_" ++ base ++ "_" ++ ctxKey ctx
  match List.lookup key ai.descCache with
  | some s => (s, ai)
  | none =>
    match ai.nlp with
    | none =>
      let enhanced :=
        if ctxGet ctx "time_of_day" = some "night" then
          (base.replace "bright" "dim").replace "sunny" "moonlit"
        else base
      (enhanced, { ai with descCache := (key, enhanced) :: ai.descCache })
    | some backend =>
      let sentiment := backend.polarity base
      let e1 :=
        if ctxGet ctx "time_of_day" = some "night" then
          (base.replace "bright" "dim").replace "sunny" "moonlit"
        else base
      let e2 :=
        if 0 < sentiment then
          (e1.replace "mysterious" "intriguing").replace "strange" "fascinating"
        else if sentiment < 0 then
          (e1.replace "peaceful" "eerie").replace "quiet" "unsettling"
        else e1
      let ai2 := { ai with descCache := (key, e2) :: ai.descCache }
      let ai3 :=
        if 100 < ai2.cmdCache.length + ai2.descCache.length then
          { ai2 with cmdCache := [], descCache := [] }
        else ai2
      (e2, ai3)

/-! ## npc.py — NPCMood and NPC -/

/-- NPC mood vector; the source documents all three components as 0-1. -/
structure NPCMood where
  happiness : ℚ := 1/2
  trust : ℚ := 1/2
  energy : ℚ := 1/2
deriving DecidableEq

/-- NPCMood.update: sentiment-driven drift with clamping into [0,1].
sentiment is player_interaction.get("sentiment", 0); our Analysis record
always carries the field. -/
def NPCMood.update (m : NPCMood) (interaction : Analysis) : NPCMood :=
  let sentiment := interaction.sentiment
  { happiness := max 0 (min 1 (m.happiness + sentiment * (1/10)))
    trust := max 0 (min 1 (m.trust + sentiment * (1/20)))
    energy := max 0 (min 1 (m.energy - 1/10)) }

/-- One conversation-memory entry ({"input", "analysis", "timestamp"});
the source stores the constant placeholder string as the timestamp. -/
structure MemEntry where
  input : String
  analysis : Analysis
  timestamp : String := "current_time"
deriving DecidableEq

/-- NPC.MAX_MEMORY (npc.py line 31). -/
def MAX_MEMORY : Nat := 3

/-- The memory update inside NPC.respond_to: append, then pop the oldest
entry when the bound is exceeded. -/
def pushMemory (mem : List MemEntry) (e : MemEntry) : List MemEntry :=
  if MAX_MEMORY < (mem ++ [e]).length then (mem ++ [e]).tail else mem ++ [e]

/-- Per-NPC response templates (the value NPC.templates holds).  The
source indexes "responses" unconditionally and "topics"/"greetings" via
.get, hence the Option-free/Option split. -/
structure NpcTemplates where
  greetings : Option (List (String × List String)) := none
  responses : List (String × List String) := []
  topics : List (String × List String) := []
deriving DecidableEq

/-- Mutable NPC state (type, templates, mood, bounded memory, per-topic
counters).  The randomly drawn personality traits are not consulted by any
modelled operation and are omitted. -/
structure NpcState where
  type : String
  templates : NpcTemplates
  mood : NPCMood := {}
  memory : List MemEntry := []
  topics : List (String × Nat) := []
deriving DecidableEq

/-- Increment of self.topics[topic] (dict get-default-plus-one). -/
def bumpCount (l : List (String × Nat)) (k : String) : List (String × Nat) :=
  match List.lookup k l with
  | some n => updateAssoc l k (n + 1)
  | none => l ++ [(k, 1)]

/-- NPC._determine_response_type. -/
def determine_response_type (analysis : Analysis) : String :=
  if analysis.intent = "greeting" then "greeting"
  else if analysis.intent = "question" then "informative"
  else if 3/10 < analysis.sentiment then "positive"
  else if analysis.sentiment < -(3/10) then "negative"
  else "neutral"

/-- NPC._get_response_pool. -/
def get_response_pool (t : NpcTemplates) (response_type topic : String) :
    List String :=
  let r1 := (List.lookup topic t.topics).getD []
  let r2 := r1 ++ ((List.lookup response_type t.responses).getD [])
  let r3 :=
    if r2 = [] then r2 ++ ((List.lookup "neutral" t.responses).getD [])
    else r2
  if r3 = [] then ["I'm not sure how to respond to that."] else r3

/-- The state transition of NPC.respond_to: analyze the utterance, update
mood, push the memory entry, bump the topic counter and build the response
pool.  random.choice over the pool is an external effect and is returned
as the pool itself. -/
def respond_to (ai : GameAI) (n : NpcState) (input : String) :
    GameAI × NpcState × List String :=
  let r := analyze_command ai input
  let analysis := r.1
  let ai2 := r.2.1
  let mood := n.mood.update analysis
  let entry : MemEntry := { input := input, analysis := analysis }
  let memory := pushMemory n.memory entry
  let topic := analysis.topic
  let topics := bumpCount n.topics topic
  let rType := determine_response_type analysis
  let pool := get_response_pool n.templates rType topic
  (ai2, { n with mood := mood, memory := memory, topics := topics }, pool)

/-- Iterate respond_to over a conversation, threading the analyzer state. -/
def npcRun (ai : GameAI) (n : NpcState) (inputs : List String) :
    GameAI × NpcState :=
  match inputs with
  | [] => (ai, n)
  | x :: xs =>
    let step := respond_to ai n x
    npcRun step.1 step.2.1 xs

/-- The {input, analysis} arrival sequence a conversation generates, with
the analyzer state threaded exactly as npcRun threads it. -/
def npcEntries (ai : GameAI) (inputs : List String) : List MemEntry :=
  match inputs with
  | [] => []
  | x :: xs =>
    let r := analyze_command ai x
    { input := x, analysis := r.1 : MemEntry } :: npcEntries r.2.1 xs

/-! ## crafting.py — CraftingSystem -/

/-- Crafting recipe record. -/
structure Recipe where
  name : String
  ingredients : List String
  result : String
  description : String
  required_location : Option String := none
deriving DecidableEq

/-- Python inventory.remove(x): drop the first occurrence, ValueError
(none) when absent. -/
def removeFirst (inv : List String) (x : String) : Option (List String) :=
  if x ∈ inv then some (inv.erase x) else none

/-- The ingredient-consumption loop of craft_item: in-place removals, one
per listed ingredient; on a ValueError the loop stops with the inventory
as mutated so far.  Returns (completed, inventory). -/
def consumeIngredients : List String → List String → Bool × List String
  | [], inv => (true, inv)
  | ing :: rest, inv =>
    match removeFirst inv ing with
    | some inv2 => consumeIngredients rest inv2
    | none => (false, inv)

/-- Result of CraftingSystem.craft_item: the returned triple, or the
uncaught ValueError from inventory.remove. -/
inductive CraftResult where
  | ok (success : Bool) (message : String) (crafted : Option String)
  | exn (error : String)
deriving DecidableEq

/-- CraftingSystem.craft_item over the loaded recipes map (recipe loading
itself is the content-store boundary).  Returns the result together with
the inventory list as left by the call. -/
def craft_item (recipes : List (String × Recipe)) (recipe_id : String)
    (inventory : List String) (location : String) :
    CraftResult × List String :=
  match List.lookup recipe_id recipes with
  | none => (.ok false "Recipe not found." none, inventory)
  | some recipe =>
    match recipe.required_location with
    | some req =>
      if req ≠ location then
        (.ok false ("You must be at the " ++ req ++ " to craft this.") none,
         inventory)
      else
        if recipe.ingredients.all (fun ing => ing ∈ inventory) then
          let c := consumeIngredients recipe.ingredients inventory
          if c.1 then
            (.ok true ("Successfully crafted " ++ recipe.result ++ "!")
              (some recipe.result), c.2)
          else (.exn "ValueError: list.remove(x): x not in list", c.2)
        else (.ok false "You don't have all required ingredients." none, inventory)
    | none =>
      if recipe.ingredients.all (fun ing => ing ∈ inventory) then
        let c := consumeIngredients recipe.ingredients inventory
        if c.1 then
          (.ok true ("Successfully crafted " ++ recipe.result ++ "!")
            (some recipe.result), c.2)
        else (.exn "ValueError: list.remove(x): x not in list", c.2)
      else (.ok false "You don't have all required ingredients." none, inventory)

/-- The success condition the spec states for craft: the recipe exists,
its required location (if any) matches, and every ingredient id is in the
inventory. -/
def craftable (recipes : List (String × Recipe)) (recipe_id : String)
    (inventory : List String) (location : String) : Prop :=
  ∃ r, List.lookup recipe_id recipes = some r ∧
    (r.required_location = none ∨ r.required_location = some location) ∧
    ∀ ing ∈ r.ingredients, ing ∈ inventory

/-! ## skills.py — SkillSystem (only what base_game's paths touch) -/

/-- SkillLevel record with its class defaults. -/
structure SkillLevel where
  level : Nat := 1
  experience : Int := 0
  next_level_exp : Nat := 100
deriving DecidableEq

/-- SkillLevel.add_exp: accumulate experience, level up past the threshold
and scale the threshold by 1.5 with int() truncation. -/
def SkillLevel.add_exp (s : SkillLevel) (amount : Int) :
    SkillLevel × Bool × Nat :=
  let exp := s.experience + amount
  if (s.next_level_exp : Int) ≤ exp then
    let s2 : SkillLevel :=
      { level := s.level + 1
        experience := exp - (s.next_level_exp : Int)
        next_level_exp := s.next_level_exp * 3 / 2 }
    (s2, true, s2.level)
  else ({ s with experience := exp }, false, s.level)

/-- The fixed skill-description keys of SkillSystem.__init__. -/
def skillNames : List String :=
  ["magic", "negotiation", "exploration", "crafting", "lore"]

/-- SkillSystem.get_skill_level.  The source's defaultdict read inserts a
default entry; that insertion is observationally equivalent for reads and
is elided. -/
def get_skill_level (skills : List (String × SkillLevel)) (name : String) :
    Nat :=
  if name ∈ skillNames then ((List.lookup name skills).getD {}).level else 0

/-- SkillSystem.add_experience: message plus updated skills map. -/
def add_experience (skills : List (String × SkillLevel)) (name : String)
    (amount : Int) : List (String × SkillLevel) × String :=
  if name ∉ skillNames then (skills, "Unknown skill: " ++ name)
  else
    let cur := (List.lookup name skills).getD {}
    let r := cur.add_exp amount
    let skills2 :=
      match List.lookup name skills with
      | some _ => updateAssoc skills name r.1
      | none => skills ++ [(name, r.1)]
    if r.2.1 then
      (skills2, "Level Up! Your " ++ name ++ " is now level " ++
        toString r.2.2 ++ "!")
    else (skills2, "Gained " ++ toString amount ++ " experience in " ++ name ++ ".")

/-! ## base_game.py — ShmooplandGame

World state, content loading and the command dispatcher.  JSON records are
explicit structures; a field the source reads with .get carries a default
or an Option.  game_data is a dict that may lack whole categories: each
category is an Option, none meaning the key is absent. -/

/-- One record of locations.json ('description' read with .get default,
'exits' with .get {}). -/
structure LocationData where
  description : String := ""
  exits : List (String × String) := []
deriving DecidableEq

/-- One record of items.json. -/
structure ItemData where
  description : String := ""
  examine_text : Option String := none
  location : String
deriving DecidableEq

/-- One record of npcs.json as base_game reads it (only .get('location')). -/
structure NpcRecord where
  location : Option String := none
deriving DecidableEq

/-- The game_data dict: a category is none when its key is absent. -/
structure GameData where
  locations : Option (List (String × LocationData)) := none
  items : Option (List (String × ItemData)) := none
  npcs : Option (List (String × NpcRecord)) := none
deriving DecidableEq

/-- The game_state dict of ShmooplandGame.__init__.  Only the seven listed
keys exist at construction; "npc_interactions", which talk() subscripts, is
never inserted anywhere in the source, hence the Option with default none. -/
structure GameStateD where
  visited_locations : List String
  collected_items : List String := []
  time_of_day : String := "morning"
  activity_level : String := "moderate"
  experience : Int := 0
  currency : Int := 0
  skill_points : Int := 0
  npc_interactions : Option (List (String × Nat)) := none
deriving DecidableEq

/-- The session state of ShmooplandGame.  The quest subsystem and the
content generator are not consulted on any modelled path (the methods
parse_command would reach them through are undefined, see Outcome.err). -/
structure Game where
  current_location : String
  inventory : List String
  game_state : GameStateD
  game_data : GameData := {}
  loaded_types : List String := []
  ai : GameAI
  npcs : List (String × NpcState) := []
  skills : List (String × SkillLevel) := []

/-- The content store: data/game/{locations,items,npcs}.json, none when
the file is missing (FileNotFoundError).  The inner maps are the files'
top-level category objects. -/
structure ContentStore where
  locationsFile : Option (List (String × LocationData)) := none
  itemsFile : Option (List (String × ItemData)) := none
  npcsFile : Option (List (String × NpcRecord)) := none

/-- What one command returns to the caller: printed messages, an uncaught
Python exception (carrying its description), sys.exit, the quit
confirmation prompt, or entry into talk's nested conversation loop (both
of the latter block on stdin, an external boundary). -/
inductive Outcome where
  | ok (msgs : List String)
  | err (exn : String)
  | sysExit (code : Nat)
  | quitPrompt
  | convLoop
deriving DecidableEq

/-- ShmooplandGame._needs_data_type. -/
def needs_data_type (g : Game) (t : String) : Bool :=
  if t ∈ g.loaded_types then false
  else if t = "locations" then true
  else if t = "items" then true
  else if t = "npcs" then
    (List.lookup g.current_location ((g.game_data.locations).getD [])).isSome
  else if t = "templates" then true
  else if t = "variables" then true
  else false

/-- One iteration of the _load_game_data loop for one data type.  Returns
the updated game and whether sys.exit(1) fired: a missing file is a
printed warning and a skip, but a KeyError on data['locations'][current]
escapes to the catch-all handler, which exits. -/
def load_data_type (store : ContentStore) (g : Game) (t : String) :
    Game × Bool :=
  if needs_data_type g t = false then (g, false)
  else if t = "locations" then
    match store.locationsFile with
    | none => (g, false)
    | some m =>
      match List.lookup g.current_location m with
      | none => (g, true)
      | some rec =>
        ({ g with
            game_data := { g.game_data with
              locations := some [(g.current_location, rec)] }
            loaded_types := setAdd g.loaded_types "locations" }, false)
  else if t = "items" then
    match store.itemsFile with
    | none => (g, false)
    | some m =>
      ({ g with
          game_data := { g.game_data with
            items := some (m.filter (fun p => p.2.location = g.current_location)) }
          loaded_types := setAdd g.loaded_types "items" }, false)
  else if t = "npcs" then
    match store.npcsFile with
    | none => (g, false)
    | some m =>
      ({ g with
          game_data := { g.game_data with npcs := some m }
          loaded_types := setAdd g.loaded_types "npcs" }, false)
  else (g, false)

/-- ShmooplandGame._load_game_data over a list of required types, stopping
at the first sys.exit. -/
def load_game_data (store : ContentStore) : Game → List String → Game × Bool
  | g, [] => (g, false)
  | g, t :: ts =>
    let r := load_data_type store g t
    if r.2 then (r.1, true) else load_game_data store r.1 ts

/-- ShmooplandGame.look.  Reads game_data['locations'] and
game_data['items'] by direct subscript (KeyError when the key is absent)
and enhances the description through the shared analyzer cache. -/
def look (g : Game) : Game × Outcome :=
  match g.game_data.locations with
  | none => (g, .err "KeyError: locations")
  | some locs =>
    match List.lookup g.current_location locs with
    | none => (g, .ok ["\nYou are in a mysterious void. Something has gone wrong!"])
    | some location =>
      let ctx := [("time_of_day", g.game_state.time_of_day),
                  ("activity_level", g.game_state.activity_level)]
      let d := generate_description g.ai location.description ctx
      let g2 := { g with ai := d.2 }
      match g.game_data.items with
      | none => (g2, .err "KeyError: items")
      | some items =>
        let items_here :=
          (items.filter (fun p => p.2.location = g.current_location)).map
            (fun p => p.1)
        let npcs_here :=
          (((g.game_data.npcs).getD []).filter
            (fun p => p.2.location = some g.current_location)).map (fun p => p.1)
        let msgs :=
          ["\n" ++ d.1] ++
          (if items_here ≠ [] then
            ["\nYou see: " ++ String.intercalate ", " items_here] else []) ++
          (if npcs_here ≠ [] then
            ["\nCharacters here: " ++ String.intercalate ", " npcs_here] else []) ++
          (if location.exits ≠ [] then
            ["\nExits: " ++
              String.intercalate ", " (location.exits.map (fun p => p.1))]
           else [])
        (g2, .ok msgs)

/-- ShmooplandGame.inventory_command: lists held items, subscripting
game_data['items'][item] for each (KeyError when a held item's record is
not loaded). -/
def inventory_command (g : Game) : Game × Outcome :=
  if g.inventory = [] then (g, .ok ["\nYou are not carrying anything."])
  else
    match g.game_data.items with
    | none => (g, .err "KeyError: items")
    | some items =>
      if g.inventory.all (fun i => (List.lookup i items).isSome) then
        (g, .ok ("\nYou are carrying:" ::
          g.inventory.map (fun i =>
            "- " ++ i ++ ": " ++ ((List.lookup i items).getD
              { location := "" }).description)))
      else (g, .err "KeyError: inventory item not in game_data")

/-- ShmooplandGame.move.  On a listed exit the location, visited set and
the whole lazily-loaded game_data are replaced, then the source calls
self._update_quest_progress — a method defined nowhere in the class, so
every such move raises AttributeError after those mutations.  An unlisted
direction changes nothing. -/
def move (store : ContentStore) (g : Game) (direction : String) :
    Game × Outcome :=
  match g.game_data.locations with
  | none => (g, .err "KeyError: locations")
  | some locs =>
    match List.lookup direction
        ((List.lookup g.current_location locs).getD {}).exits with
    | none => (g, .ok ["\nYou can't go that way."])
    | some new_location =>
      let g1 := { g with
        current_location := new_location
        game_state := { g.game_state with
          visited_locations :=
            setAdd g.game_state.visited_locations new_location }
        game_data := {}
        loaded_types := [] }
      let r := load_game_data store g1 ["locations", "items", "npcs"]
      if r.2 then (r.1, .sysExit 1)
      else (r.1, .err "AttributeError: _update_quest_progress")

/-- ShmooplandGame.take: both guards precede the three mutations. -/
def take (g : Game) (item_name : String) : Game × Outcome :=
  if item_name = "" then (g, .ok ["\nWhat do you want to take?"])
  else
    match g.game_data.items with
    | none => (g, .err "KeyError: items")
    | some items =>
      match List.lookup item_name items with
      | none => (g, .ok ["\nThere is no " ++ item_name ++ " here."])
      | some d =>
        if d.location ≠ g.current_location then
          (g, .ok ["\nThere is no " ++ item_name ++ " here."])
        else
          ({ g with
              inventory := g.inventory ++ [item_name]
              game_data := { g.game_data with
                items := some (updateAssoc items item_name
                  { d with location := "inventory" }) }
              game_state := { g.game_state with
                collected_items :=
                  setAdd g.game_state.collected_items item_name } },
           .ok ["\nYou take the " ++ item_name ++ "."])

/-- ShmooplandGame.drop: the inventory removal happens first; the
subsequent game_data['items'][item_name] subscript raises KeyError when
the held item's record is not in the currently loaded data, leaving the
inventory already mutated. -/
def drop (g : Game) (item_name : String) : Game × Outcome :=
  if item_name = "" then (g, .ok ["\nWhat do you want to drop?"])
  else if item_name ∉ g.inventory then
    (g, .ok ["\nYou don't have a " ++ item_name ++ "."])
  else
    let g1 := { g with inventory := g.inventory.erase item_name }
    match g1.game_data.items with
    | none => (g1, .err "KeyError: items")
    | some items =>
      match List.lookup item_name items with
      | none => (g1, .err ("KeyError: " ++ item_name))
      | some d =>
        ({ g1 with
            game_data := { g1.game_data with
              items := some (updateAssoc items item_name
                { d with location := g1.current_location }) } },
         .ok ["\nYou drop the " ++ item_name ++ "."])

/-- ShmooplandGame.examine. -/
def examine (g : Game) (item_name : String) : Game × Outcome :=
  if item_name = "" then (g, .ok ["\nWhat do you want to examine?"])
  else
    match g.game_data.items with
    | none => (g, .err "KeyError: items")
    | some items =>
      match List.lookup item_name items with
      | none => (g, .ok ["\nYou don't see any " ++ item_name ++ " to examine."])
      | some d =>
        if d.location ≠ g.current_location ∧ d.location ≠ "inventory" then
          (g, .ok ["\nYou don't see any " ++ item_name ++ " to examine."])
        else
          let ctx := [("time_of_day", g.game_state.time_of_day),
                      ("activity_level", g.game_state.activity_level),
                      ("skill_level", toString (get_skill_level g.skills "lore"))]
          let base := d.examine_text.getD d.description
          let r := generate_description g.ai base ctx
          ({ g with ai := r.2 }, .ok ["\n" ++ r.1])

/-- ShmooplandGame.talk.  Both absence guards return a message with no
state change; past them the source builds a context dict that subscripts
self.game_state["npc_interactions"], a key __init__ never creates, so the
call raises KeyError before any greeting.  The (dead) success path would
enter the nested stdin-blocking conversation loop. -/
def talk (g : Game) (npc_arg : String) : Game × Outcome :=
  if npc_arg = "" then (g, .ok ["\nWho do you want to talk to?"])
  else
    let npc_type := strToLower npc_arg
    if (List.lookup npc_type g.npcs).isNone then
      (g, .ok ["\nThere's no " ++ npc_type ++ " here to talk to."])
    else
      let present :=
        (((g.game_data.npcs).getD []).filter
          (fun p => p.2.location = some g.current_location)).map (fun p => p.1)
      if npc_type ∉ present then
        (g, .ok ["\nThere's no " ++ npc_type ++ " here to talk to."])
      else
        match g.game_state.npc_interactions with
        | none => (g, .err "KeyError: npc_interactions")
        | some _ => (g, .convLoop)

/-- ShmooplandGame.train_skill (train <name> adds 10 experience). -/
def train_skill (g : Game) (name : String) : Game × Outcome :=
  let r := add_experience g.skills name 10
  ({ g with skills := r.1 }, .ok ["\n" ++ r.2])

/-- The literal first-token dispatch of parse_command (the if/elif chain
after the intent checks).  "quests"/"quest <id>" call self.show_quests /
self.show_quest_details, methods defined nowhere in the class:
AttributeError.  There is no "go", "examine" or "talk" branch.  The
help/skills listing texts are abbreviated; no proof depends on them. -/
def literal_dispatch (g : Game) (action : String) (args : List String) :
    Game × Outcome :=
  if action = "quit" then (g, .quitPrompt)
  else if action = "look" then look g
  else if action = "inventory" then inventory_command g
  else if action = "help" then (g, .ok ["\nAvailable commands: (help text)"])
  else if action = "take" ∧ args ≠ [] then take g (joinWords args)
  else if action = "drop" ∧ args ≠ [] then drop g (joinWords args)
  else if action = "quests" then (g, .err "AttributeError: show_quests")
  else if action = "quest" ∧ args ≠ [] then
    (g, .err "AttributeError: show_quest_details")
  else if action = "skills" then (g, .ok ["\nYour Skills: (listing)"])
  else if action = "skill" ∧ args ≠ [] then
    (g, .ok ["\nSkill details for " ++ joinWords args])
  else if action = "train" ∧ args ≠ [] then train_skill g (joinWords args)
  else
    (g, .ok ["\nI don't understand that command. Type 'help' for a list of commands."])

/-- ShmooplandGame.parse_command: analyze, intent-first routing
("movement" / "interaction"), then the literal chain. -/
def parse_command (store : ContentStore) (g : Game) (command : String) :
    Game × Outcome :=
  if command = "" then (g, .ok [])
  else
    let r := analyze_command g.ai command
    let analysis := r.1
    let g := { g with ai := r.2.1 }
    let words := splitWs (strToLower command)
    match words with
    | [] => (g, .err "IndexError: list index out of range")
    | action :: args =>
      if analysis.intent = "movement" ∧ args ≠ [] then
        move store g (args.headD "")
      else if analysis.intent = "interaction" ∧ action = "examine" ∧ args ≠ [] then
        examine g (joinWords args)
      else if analysis.intent = "interaction" ∧ action = "talk" ∧ args ≠ [] then
        talk g (joinWords args)
      else literal_dispatch g action args

/-- ShmooplandGame.__init__: fresh session at "start", the initial
game_state dict, loading of locations and items, then component setup.
npcs is built from game_data.get('npcs', {}), which this load never
populates, so the NPC-object dict is empty.  Returns the game and whether
sys.exit(1) fired during loading. -/
def initGame (store : ContentStore) (nlp : Option NlpBackend) : Game × Bool :=
  let g0 : Game :=
    { current_location := "start"
      inventory := []
      game_state := { visited_locations := ["start"] }
      game_data := {}
      loaded_types := []
      ai := { nlp := nlp, cmdCache := [], descCache := [] }
      npcs := []
      skills := [] }
  let r := load_game_data store g0 ["locations", "items"]
  (r.1, r.2)

/-! ## Concrete fixtures used by the closed theorems and witnesses -/

/-- Fresh GameAI with the linguistic backend unavailable (spacy.load
raised OSError), as in GameAI.nlp's except branch. -/
def aiFresh : GameAI := { nlp := none, cmdCache := [], descCache := [] }

/-- Plausible spaCy document for "go north": "go" tagged VERB, lemma go. -/
def docGoNorth : NlpDoc :=
  { tokens := [{ text := "go", lemma_ := "go", pos := "VERB", dep := "ROOT" },
               { text := "north", lemma_ := "north", pos := "ADV", dep := "advmod" }]
    ents := [] }

/-- Plausible spaCy document for "take potion". -/
def docTakePotion : NlpDoc :=
  { tokens := [{ text := "take", lemma_ := "take", pos := "VERB", dep := "ROOT" },
               { text := "potion", lemma_ := "potion", pos := "NOUN", dep := "dobj" }]
    ents := [] }

/-- Plausible spaCy document for the non-word "xyzzy": no VERB token. -/
def docXyzzy : NlpDoc :=
  { tokens := [{ text := "xyzzy", lemma_ := "xyzzy", pos := "NOUN", dep := "ROOT" }]
    ents := [] }

/-- One concrete linguistic backend used to evaluate the backend path. -/
def backendFix : NlpBackend :=
  { pipeline := fun s =>
      if s = "go north" then docGoNorth
      else if s = "take potion" then docTakePotion
      else docXyzzy
    polarity := fun _ => 0 }

/-- Fresh GameAI with the concrete backend loaded. -/
def aiBackend : GameAI := { nlp := some backendFix, cmdCache := [], descCache := [] }

/-- Content store of the end-to-end scenario: "start" with exit
north→"market", the crystal item at "market". -/
def store2 : ContentStore :=
  { locationsFile := some
      [("start", { description := "The town square.", exits := [("north", "market")] }),
       ("market", { description := "A bustling market.", exits := [("south", "start")] })]
    itemsFile := some [("crystal", { description := "A shiny crystal.", location := "market" })]
    npcsFile := none }

/-- The fresh session over store2 (ShmooplandGame.__init__). -/
def gA : Game := (initGame store2 none).1

/-- Direct invocation of move at the fresh session: north is a listed exit. -/
def moveB : Game × Outcome := move store2 gA "north"

/-- State after the first move (mutated although move raised). -/
def gB : Game := moveB.1

/-- Taking the crystal at the market. -/
def takeC : Game × Outcome := take gB "crystal"

/-- State holding the crystal in inventory. -/
def gC : Game := takeC.1

/-- Moving back south with the crystal held. -/
def moveD : Game × Outcome := move store2 gC "south"

/-- State back at "start": the reload dropped the crystal's record. -/
def gD : Game := moveD.1

/-- Dropping the held crystal at "start". -/
def dropE : Game × Outcome := drop gD "crystal"

/-- NPC object fixture. -/
def npcMerchant : NpcState :=
  { type := "merchant", templates := { responses := [("neutral", ["Hm."])] } }

/-- Session state with the merchant NPC present at the current location
(the claim's success precondition for talk). -/
def g4 : Game :=
  { current_location := "market"
    inventory := []
    game_state := { visited_locations := ["market"] }
    game_data := { npcs := some [("merchant", { location := some "market" })] }
    ai := aiFresh
    npcs := [("merchant", npcMerchant)] }

/-- Recipe whose ingredient list repeats an id. -/
def recipesDup : List (String × Recipe) :=
  [("double_axe", { name := "Double Axe", ingredients := ["wood", "wood"],
                    result := "axe", description := "two woods" })]

/-! ## Claim theorems -/

/-- Claim C1 (code_bug evidence): the analyzer's dispatcher-visible intent
labels differ from the spec's closed mapping on both paths.  On the
backend-absent fallback path every text, including "go north" and
"take potion", gets intent "unknown"; on the linguistic-backend path
"go north" gets "move" and "take potion" gets "acquire" (the source's
go→move, take→acquire mapping), never "movement"/"interaction"; only the
"xyzzy"→unknown third of the claim holds. -/
theorem c1_intent_labels :
    (analyze_command aiFresh "go north").1.intent = "unknown" ∧
    (analyze_command aiFresh "take potion").1.intent = "unknown" ∧
    (analyze_command aiFresh "xyzzy").1.intent = "unknown" ∧
    (analyze_command aiBackend "go north").1.intent = "move" ∧
    (analyze_command aiBackend "take potion").1.intent = "acquire" ∧
    (analyze_command aiBackend "xyzzy").1.intent = "unknown" ∧
    "unknown" ≠ "movement" ∧ "move" ≠ "movement" ∧ "acquire" ≠ "interaction" := by
  refine ⟨by decide, by decide, by decide, by decide, by decide, by decide,
    by decide, by decide, by decide⟩

/-- Claim C2 (code_bug evidence): in the fresh session at "start" with
exit north→"market", the command "go north" is answered with the
don't-understand fallback and the location and visited set are unchanged —
the analyzer never produces intent "movement" and parse_command's literal
chain has no "go" branch, so the scenario's first step cannot move the
player. -/
theorem c2_go_north_rejected :
    (initGame store2 none).2 = false ∧
    gA.current_location = "start" ∧
    (List.lookup "start" ((gA.game_data.locations).getD [])).isSome ∧
    (parse_command store2 gA "go north").1.current_location = "start" ∧
    (parse_command store2 gA "go north").1.game_state.visited_locations = ["start"] ∧
    (parse_command store2 gA "go north").2 =
      .ok ["\nI don't understand that command. Type 'help' for a list of commands."] := by
  refine ⟨by decide, by decide, by decide, by decide, by decide, by decide⟩

/-- Claim C3 (code_bug evidence): dispatcher paths are not total and do
leave partial mutations.  A move through a listed exit mutates the
location, visited set and loaded data and then raises AttributeError
(self._update_quest_progress is defined nowhere); a subsequent drop of the
held crystal removes it from the inventory and then raises KeyError, the
item's location field never being set — the state is left partially
mutated.  The literal command "quests" likewise raises AttributeError. -/
theorem c3_dispatcher_not_total :
    moveB.2 = .err "AttributeError: _update_quest_progress" ∧
    gB.current_location = "market" ∧
    takeC.2 = .ok ["\nYou take the crystal."] ∧
    gC.inventory = ["crystal"] ∧
    moveD.2 = .err "AttributeError: _update_quest_progress" ∧
    gD.current_location = "start" ∧
    gD.inventory = ["crystal"] ∧
    gD.game_data.items = some [] ∧
    dropE.2 = .err "KeyError: crystal" ∧
    dropE.1.inventory = [] ∧
    (parse_command store2 gA "quests").2 = .err "AttributeError: show_quests" := by
  refine ⟨by decide, by decide, by decide, by decide, by decide, by decide,
    by decide, by decide, by decide, by decide, by decide⟩

/-- Claim C4 (code_bug evidence): talk's absence guard works — an unknown
NPC name gets the no-one-here message with no state change — but when the
NPC exists and is present at the current location the call raises KeyError
on game_state["npc_interactions"], a key __init__ never creates, instead
of entering the conversation. -/
theorem c4_talk_guard_and_crash :
    talk g4 "wizard" = (g4, .ok ["\nThere's no wizard here to talk to."]) ∧
    (List.lookup "merchant" g4.npcs).isSome ∧
    talk g4 "merchant" = (g4, .err "KeyError: npc_interactions") := by
  exact ⟨rfl, by decide, rfl⟩

/-- Claim C5 counterexample: for the recipe listing "wood" twice and the
inventory holding one "wood", every ingredient id is present and no
location is required (the claim's success condition), yet craft_item
raises ValueError and leaves the inventory partially consumed ([] instead
of ["wood"]) — neither the claimed success nor an inventory-preserving
failure. -/
theorem c5_counterexample :
    craftable recipesDup "double_axe" ["wood"] "camp" ∧
    (craft_item recipesDup "double_axe" ["wood"] "camp").1 =
      .exn "ValueError: list.remove(x): x not in list" ∧
    (craft_item recipesDup "double_axe" ["wood"] "camp").2 = [] ∧
    ([] : List String) ≠ ["wood"] := by
  refine ⟨⟨{ name := "Double Axe", ingredients := ["wood", "wood"],
             result := "axe", description := "two woods" }, rfl, Or.inl rfl, by decide⟩,
    by decide, by decide, by decide⟩

/-! ## Crafting characterization (C5, amended) -/

/-- Whether a craft_item result is the success triple. -/
def isSuccess : CraftResult → Bool
  | .ok s _ _ => s
  | .exn _ => false

/-- The crafted-item component of a craft_item result. -/
def craftedItem : CraftResult → Option String
  | .ok _ _ c => c
  | .exn _ => none

/-- A successful dict lookup exhibits the binding. -/
lemma lookup_mem_pair {α : Type} (l : List (String × α)) (k : String) (v : α)
    (h : List.lookup k l = some v) : (k, v) ∈ l := by
  induction l with
  | nil => simp [List.lookup] at h
  | cons p t ih =>
    obtain ⟨a, b⟩ := p
    by_cases hk : k = a
    · subst hk
      simp only [List.lookup_cons, beq_self_eq_true] at h
      injection h with h2
      subst h2
      exact List.mem_cons_self _ _
    · have hbk : (k == a) = false := by
        rw [beq_eq_false_iff_ne]; exact hk
      simp only [List.lookup_cons, hbk] at h
      exact List.mem_cons_of_mem _ (ih h)

/-- With duplicate-free ingredients all present, the consumption loop
completes and is the fold of single erasures. -/
lemma consume_of_nodup (ings : List String) :
    ∀ inv : List String, ings.Nodup → (∀ i ∈ ings, i ∈ inv) →
      consumeIngredients ings inv =
        (true, List.foldl (fun acc i => acc.erase i) inv ings) := by
  induction ings with
  | nil => intro inv _ _; simp [consumeIngredients]
  | cons i rest ih =>
    intro inv hnd hall
    rw [List.nodup_cons] at hnd
    have hi : i ∈ inv := hall i (List.mem_cons_self _ _)
    have hstep : removeFirst inv i = some (inv.erase i) := by
      simp [removeFirst, hi]
    have hall2 : ∀ j ∈ rest, j ∈ inv.erase i := by
      intro j hj
      have hji : j ≠ i := fun he => hnd.1 (he ▸ hj)
      exact (List.mem_erase_of_ne hji).mpr (hall j (List.mem_cons_of_mem _ hj))
    simp only [consumeIngredients, hstep, List.foldl_cons]
    exact ih (inv.erase i) hnd.2 hall2

/-- Erasing each of a duplicate-free, fully present ingredient list takes
exactly one occurrence of each ingredient id out of the inventory. -/
lemma count_foldl_erase (ings : List String) :
    ∀ inv : List String, ings.Nodup → (∀ i ∈ ings, i ∈ inv) → ∀ x : String,
      (List.foldl (fun acc i => acc.erase i) inv ings).count x =
        inv.count x - (if x ∈ ings then 1 else 0) := by
  induction ings with
  | nil => intro inv _ _ x; simp
  | cons i rest ih =>
    intro inv hnd hall x
    rw [List.nodup_cons] at hnd
    have hi : i ∈ inv := hall i (List.mem_cons_self _ _)
    have hall2 : ∀ j ∈ rest, j ∈ inv.erase i := by
      intro j hj
      have hji : j ≠ i := fun he => hnd.1 (he ▸ hj)
      exact (List.mem_erase_of_ne hji).mpr (hall j (List.mem_cons_of_mem _ hj))
    rw [List.foldl_cons, ih (inv.erase i) hnd.2 hall2 x]
    by_cases hx : x = i
    · subst hx
      have hxrest : x ∉ rest := hnd.1
      rw [List.count_erase_self]
      simp [hxrest]
    · rw [List.count_erase_of_ne hx]
      have hmemiff : (x ∈ i :: rest) ↔ (x ∈ rest) := by
        simp [List.mem_cons, hx]
      simp [hmemiff]

/-- Claim C5 as amended: for recipes whose ingredient lists repeat no id,
craft_item raises nothing and succeeds exactly when the recipe exists,
its required location (if any) matches, and every ingredient id is in the
inventory; on success exactly one occurrence of each ingredient id is
removed and the recipe's result id is returned; on every failing call the
inventory is unchanged.  (Without the no-duplicates proviso the claim is
false: see the counterexample.) -/
theorem c5_craft_nodup_spec (recipes : List (String × Recipe)) (rid : String)
    (inv : List String) (loc : String)
    (hnd : ∀ p ∈ recipes, p.2.ingredients.Nodup) :
    (∃ s m c, (craft_item recipes rid inv loc).1 = .ok s m c) ∧
    (isSuccess (craft_item recipes rid inv loc).1 = true ↔
      craftable recipes rid inv loc) ∧
    (∀ rcp, List.lookup rid recipes = some rcp →
      isSuccess (craft_item recipes rid inv loc).1 = true →
      craftedItem (craft_item recipes rid inv loc).1 = some rcp.result ∧
      ∀ x, (craft_item recipes rid inv loc).2.count x =
        inv.count x - (if x ∈ rcp.ingredients then 1 else 0)) ∧
    (isSuccess (craft_item recipes rid inv loc).1 = false →
      (craft_item recipes rid inv loc).2 = inv) := by
  cases hl : List.lookup rid recipes with
  | none =>
    refine ⟨⟨false, "Recipe not found.", none, by simp [craft_item, hl]⟩,
      ?_, ?_, ?_⟩
    · constructor
      · intro hs; exfalso; simp [craft_item, hl, isSuccess] at hs
      · rintro ⟨r, hr, -, -⟩; rw [hl] at hr; cases hr
    · intro rcp hrcp; cases hrcp
    · intro _; simp [craft_item, hl]
  | some rcp =>
    have hmem : (rid, rcp) ∈ recipes := lookup_mem_pair recipes rid rcp hl
    have hndr : rcp.ingredients.Nodup := hnd (rid, rcp) hmem
    cases hreq : rcp.required_location with
    | some req =>
      by_cases hreqloc : req = loc
      · by_cases hall : ∀ i ∈ rcp.ingredients, i ∈ inv
        · have hallb : rcp.ingredients.all (fun ing => decide (ing ∈ inv)) = true := by
            rw [List.all_eq_true]
            intro x hx; exact decide_eq_true (hall x hx)
          have hcons := consume_of_nodup rcp.ingredients inv hndr hall
          have hcount := count_foldl_erase rcp.ingredients inv hndr hall
          have hc : craft_item recipes rid inv loc =
              (.ok true ("Successfully crafted " ++ rcp.result ++ "!")
                (some rcp.result),
               List.foldl (fun acc i => acc.erase i) inv rcp.ingredients) := by
            simp [craft_item, hl, hreq, hreqloc, hallb, hcons]
          rw [hc]
          refine ⟨⟨true, _, _, rfl⟩, ?_, ?_, ?_⟩
          · exact ⟨fun _ => ⟨rcp, hl, Or.inr (by rw [hreq, hreqloc]), hall⟩,
              fun _ => rfl⟩
          · intro rcp2 hrcp2 _
            injection hrcp2 with h2
            subst h2
            exact ⟨rfl, hcount⟩
          · intro hfalse; simp [isSuccess] at hfalse
        · have hallb : rcp.ingredients.all (fun ing => decide (ing ∈ inv)) = false := by
            rw [← Bool.not_eq_true, List.all_eq_true]
            intro hcontra
            exact hall (fun x hx => of_decide_eq_true (hcontra x hx))
          have hc : craft_item recipes rid inv loc =
              (.ok false "You don't have all required ingredients." none, inv) := by
            simp [craft_item, hl, hreq, hreqloc, hallb]
          rw [hc]
          refine ⟨⟨false, _, _, rfl⟩, ?_, ?_, fun _ => rfl⟩
          · constructor
            · intro hs; exfalso; simp [isSuccess] at hs
            · rintro ⟨r, hr, -, hri⟩
              exfalso
              rw [hl] at hr
              injection hr with h2
              subst h2
              exact hall hri
          · intro rcp2 hrcp2 hs; exfalso; simp [isSuccess] at hs
      · have hc : craft_item recipes rid inv loc =
            (.ok false ("You must be at the " ++ req ++ " to craft this.") none,
             inv) := by
          simp [craft_item, hl, hreq, hreqloc]
        rw [hc]
        refine ⟨⟨false, _, _, rfl⟩, ?_, ?_, fun _ => rfl⟩
        · constructor
          · intro hs; exfalso; simp [isSuccess] at hs
          · rintro ⟨r, hr, hrl, -⟩
            exfalso
            rw [hl] at hr
            injection hr with h2
            subst h2
            cases hrl with
            | inl h => rw [hreq] at h; cases h
            | inr h =>
              rw [hreq] at h
              injection h with hh
              exact hreqloc hh
        · intro rcp2 hrcp2 hs; exfalso; simp [isSuccess] at hs
    | none =>
      by_cases hall : ∀ i ∈ rcp.ingredients, i ∈ inv
      · have hallb : rcp.ingredients.all (fun ing => decide (ing ∈ inv)) = true := by
          rw [List.all_eq_true]
          intro x hx; exact decide_eq_true (hall x hx)
        have hcons := consume_of_nodup rcp.ingredients inv hndr hall
        have hcount := count_foldl_erase rcp.ingredients inv hndr hall
        have hc : craft_item recipes rid inv loc =
            (.ok true ("Successfully crafted " ++ rcp.result ++ "!")
              (some rcp.result),
             List.foldl (fun acc i => acc.erase i) inv rcp.ingredients) := by
          simp [craft_item, hl, hreq, hallb, hcons]
        rw [hc]
        refine ⟨⟨true, _, _, rfl⟩, ?_, ?_, ?_⟩
        · exact ⟨fun _ => ⟨rcp, hl, Or.inl hreq, hall⟩, fun _ => rfl⟩
        · intro rcp2 hrcp2 _
          injection hrcp2 with h2
          subst h2
          exact ⟨rfl, hcount⟩
        · intro hfalse; simp [isSuccess] at hfalse
      · have hallb : rcp.ingredients.all (fun ing => decide (ing ∈ inv)) = false := by
          rw [← Bool.not_eq_true, List.all_eq_true]
          intro hcontra
          exact hall (fun x hx => of_decide_eq_true (hcontra x hx))
        have hc : craft_item recipes rid inv loc =
            (.ok false "You don't have all required ingredients." none, inv) := by
          simp [craft_item, hl, hreq, hallb]
        rw [hc]
        refine ⟨⟨false, _, _, rfl⟩, ?_, ?_, fun _ => rfl⟩
        · constructor
          · intro hs; exfalso; simp [isSuccess] at hs
          · rintro ⟨r, hr, -, hri⟩
            exfalso
            rw [hl] at hr
            injection hr with h2
            subst h2
            exact hall hri
        · intro rcp2 hrcp2 hs; exfalso; simp [isSuccess] at hs

/-- Witness recipe set mirroring the repository's own crafting test. -/
def recipes0 : List (String × Recipe) :=
  [("magic_charm", { name := "Magic Charm",
                     ingredients := ["crystal_prism", "singing_flower"],
                     result := "enchanted_charm", description := "A charm.",
                     required_location := some "wizard_tower" })]

/-- Witness for the amended C5 at the wizard tower with both ingredients. -/
theorem c5_craft_nodup_spec_witness :
    (∀ p ∈ recipes0, p.2.ingredients.Nodup) ∧
    ((∃ s m c, (craft_item recipes0 "magic_charm"
        ["crystal_prism", "singing_flower"] "wizard_tower").1 = .ok s m c) ∧
     (isSuccess (craft_item recipes0 "magic_charm"
        ["crystal_prism", "singing_flower"] "wizard_tower").1 = true ↔
       craftable recipes0 "magic_charm"
         ["crystal_prism", "singing_flower"] "wizard_tower") ∧
     (∀ rcp, List.lookup "magic_charm" recipes0 = some rcp →
       isSuccess (craft_item recipes0 "magic_charm"
         ["crystal_prism", "singing_flower"] "wizard_tower").1 = true →
       craftedItem (craft_item recipes0 "magic_charm"
         ["crystal_prism", "singing_flower"] "wizard_tower").1 =
           some rcp.result ∧
       ∀ x, (craft_item recipes0 "magic_charm"
         ["crystal_prism", "singing_flower"] "wizard_tower").2.count x =
           (["crystal_prism", "singing_flower"] : List String).count x -
             (if x ∈ rcp.ingredients then 1 else 0)) ∧
     (isSuccess (craft_item recipes0 "magic_charm"
        ["crystal_prism", "singing_flower"] "wizard_tower").1 = false →
       (craft_item recipes0 "magic_charm"
         ["crystal_prism", "singing_flower"] "wizard_tower").2 =
           ["crystal_prism", "singing_flower"])) :=
  ⟨by decide,
    c5_craft_nodup_spec recipes0 "magic_charm"
      ["crystal_prism", "singing_flower"] "wizard_tower" (by decide)⟩

/-! ## Mood clamping (C6) -/

/-- All three mood components lie in [0,1]. -/
def moodInRange (m : NPCMood) : Prop :=
  0 ≤ m.happiness ∧ m.happiness ≤ 1 ∧ 0 ≤ m.trust ∧ m.trust ≤ 1 ∧
  0 ≤ m.energy ∧ m.energy ≤ 1

/-- One clamped update always lands in [0,1], whatever the inputs. -/
lemma update_moodInRange (m : NPCMood) (a : Analysis) :
    moodInRange (m.update a) := by
  unfold moodInRange NPCMood.update
  refine ⟨le_max_left 0 _, max_le zero_le_one (min_le_left 1 _),
    le_max_left 0 _, max_le zero_le_one (min_le_left 1 _),
    le_max_left 0 _, max_le zero_le_one (min_le_left 1 _)⟩

/-- Folding updates preserves the range. -/
lemma foldl_update_moodInRange (as : List Analysis) :
    ∀ m : NPCMood, moodInRange m → moodInRange (as.foldl NPCMood.update m) := by
  induction as with
  | nil => intro m h; exact h
  | cons a as ih =>
    intro m _
    exact ih (m.update a) (update_moodInRange m a)

/-- Claim C6: each mood update is the clamped drift NPCMood.update
(happiness += sentiment/10, trust += sentiment/20, energy -= 1/10, each
clamped into [0,1]); consequently, after every update in any utterance
sequence — whatever the sentiments, in [-1,1] or not — happiness, trust
and energy all lie within [0,1]. -/
theorem c6_mood_clamped (m : NPCMood) (a : Analysis) (as : List Analysis) :
    moodInRange (as.foldl NPCMood.update (m.update a)) :=
  foldl_update_moodInRange as (m.update a) (update_moodInRange m a)

/-! ## Conversation-memory bound (C7) -/

/-- A bounded-memory push is a drop on the appended list. -/
lemma pushMemory_eq_drop (mem : List MemEntry) (e : MemEntry)
    (h : mem.length ≤ MAX_MEMORY) :
    pushMemory mem e = (mem ++ [e]).drop (mem.length + 1 - MAX_MEMORY) := by
  unfold pushMemory MAX_MEMORY at *
  by_cases hm : mem.length = 3
  · rw [if_pos (by simp [List.length_append, hm])]
    have h1 : mem.length + 1 - 3 = 1 := by omega
    rw [h1, List.drop_one]
  · rw [if_neg (by simp [List.length_append]; omega)]
    have h0 : mem.length + 1 - 3 = 0 := by omega
    rw [h0, List.drop_zero]

/-- Folded pushes keep exactly the most recent MAX_MEMORY entries: the
result is the arrival sequence with everything before the window dropped. -/
lemma foldl_pushMemory (es : List MemEntry) :
    ∀ mem : List MemEntry, mem.length ≤ MAX_MEMORY →
      List.foldl pushMemory mem es =
        (mem ++ es).drop (mem.length + es.length - MAX_MEMORY) := by
  induction es with
  | nil =>
    intro mem h
    simp [List.foldl, Nat.sub_eq_zero_of_le (by simpa using h)]
  | cons e es ih =>
    intro mem h
    have h3 : mem.length ≤ 3 := h
    have hP : (pushMemory mem e).length ≤ MAX_MEMORY := by
      rw [pushMemory_eq_drop mem e h]
      simp only [List.length_drop, List.length_append, List.length_cons,
        List.length_nil, MAX_MEMORY]
      omega
    rw [List.foldl_cons, ih _ hP, pushMemory_eq_drop mem e h]
    rw [List.length_drop]
    rw [← List.drop_append_of_le_length
      (show mem.length + 1 - MAX_MEMORY ≤ (mem ++ [e]).length by
        simp only [List.length_append, List.length_cons, List.length_nil]
        omega)]
    rw [List.drop_drop]
    have hassoc : (mem ++ [e]) ++ es = mem ++ e :: es := by simp
    rw [hassoc]
    congr 1
    simp only [List.length_append, List.length_cons, List.length_nil, MAX_MEMORY]
    omega

/-- The arrival sequence has one entry per utterance. -/
lemma npcEntries_length (inputs : List String) :
    ∀ ai : GameAI, (npcEntries ai inputs).length = inputs.length := by
  induction inputs with
  | nil => intro ai; simp [npcEntries]
  | cons x xs ih => intro ai; simp [npcEntries, ih]

/-- A conversation's memory is the fold of pushes over its arrival
sequence. -/
lemma npcRun_memory (inputs : List String) :
    ∀ (ai : GameAI) (npc : NpcState),
      (npcRun ai npc inputs).2.memory =
        List.foldl pushMemory npc.memory (npcEntries ai inputs) := by
  induction inputs with
  | nil => intro ai npc; simp [npcRun, npcEntries]
  | cons x xs ih =>
    intro ai npc
    simp only [npcRun, npcEntries, respond_to, List.foldl_cons]
    exact ih _ _

/-- Claim C7: starting from an empty conversation memory, after any
sequence of at least MAX_MEMORY interactions the NPC memory holds exactly
the last MAX_MEMORY {input, analysis} entries in arrival order (FIFO by
content), and its length is exactly MAX_MEMORY. -/
theorem c7_memory_fifo (ai : GameAI) (npc : NpcState) (inputs : List String)
    (hmem : npc.memory = []) (hlen : MAX_MEMORY ≤ inputs.length) :
    (npcRun ai npc inputs).2.memory =
      (npcEntries ai inputs).drop (inputs.length - MAX_MEMORY) ∧
    (npcRun ai npc inputs).2.memory.length = MAX_MEMORY := by
  have h1 := npcRun_memory inputs ai npc
  rw [hmem] at h1
  have h2 := foldl_pushMemory (npcEntries ai inputs) []
    (by simp [MAX_MEMORY])
  simp only [List.nil_append, List.length_nil, Nat.zero_add] at h2
  rw [npcEntries_length inputs ai] at h2
  constructor
  · rw [h1, h2]
  · rw [h1, h2]
    rw [List.length_drop, npcEntries_length inputs ai]
    omega

/-- Witness for C7 at a concrete four-utterance conversation. -/
theorem c7_memory_fifo_witness :
    npcMerchant.memory = [] ∧
    MAX_MEMORY ≤ (["a", "b", "c", "d"] : List String).length ∧
    ((npcRun aiFresh npcMerchant ["a", "b", "c", "d"]).2.memory =
      (npcEntries aiFresh ["a", "b", "c", "d"]).drop
        ((["a", "b", "c", "d"] : List String).length - MAX_MEMORY) ∧
     (npcRun aiFresh npcMerchant ["a", "b", "c", "d"]).2.memory.length =
       MAX_MEMORY) :=
  ⟨rfl, by decide,
    c7_memory_fifo aiFresh npcMerchant ["a", "b", "c", "d"] rfl (by decide)⟩

/-! ## Take/drop round trip (C8) and move frame condition (C9) -/

/-- Updating a present key makes lookup return the new value. -/
lemma lookup_updateAssoc_self {α : Type} (l : List (String × α)) (k : String)
    (v : α) (h : (List.lookup k l).isSome) :
    List.lookup k (updateAssoc l k v) = some v := by
  induction l with
  | nil => simp [List.lookup] at h
  | cons p t ih =>
    obtain ⟨a, b⟩ := p
    by_cases hk : a = k
    · subst hk
      simp [updateAssoc, List.lookup_cons]
    · have hbk : (k == a) = false := by
        rw [beq_eq_false_iff_ne]
        exact fun hh => hk hh.symm
      simp only [List.lookup_cons, hbk] at h
      simp only [updateAssoc, List.map_cons, if_neg hk, List.lookup_cons, hbk]
      exact ih h

/-- Claim C8: for an item I located at the player's current location (and
hence, by the inventory invariant, not already held), take I then drop I
restores I's location field to the original location, leaves I absent
from the inventory, and restores the inventory's length (indeed the
inventory itself). -/
theorem c8_take_drop_roundtrip (g : Game) (I : String)
    (items : List (String × ItemData)) (d : ItemData)
    (hne : I ≠ "")
    (hitems : g.game_data.items = some items)
    (hfind : List.lookup I items = some d)
    (hloc : d.location = g.current_location)
    (hinv : I ∉ g.inventory) :
    (drop (take g I).1 I).1.inventory = g.inventory ∧
    I ∉ (drop (take g I).1 I).1.inventory ∧
    (drop (take g I).1 I).1.inventory.length = g.inventory.length ∧
    ∃ items2, (drop (take g I).1 I).1.game_data.items = some items2 ∧
      ∃ d2, List.lookup I items2 = some d2 ∧
        d2.location = g.current_location := by
  have hs0 : (List.lookup I items).isSome := by rw [hfind]; rfl
  have hlookup1 :
      List.lookup I (updateAssoc items I { d with location := "inventory" }) =
        some { d with location := "inventory" } :=
    lookup_updateAssoc_self items I _ hs0
  have hs1 :
      (List.lookup I
        (updateAssoc items I { d with location := "inventory" })).isSome := by
    rw [hlookup1]; rfl
  have herase : (g.inventory ++ [I]).erase I = g.inventory := by
    rw [List.erase_append_right _ hinv, List.erase_cons_head, List.append_nil]
  have htake : (take g I).1 =
      { g with
          inventory := g.inventory ++ [I]
          game_data := { g.game_data with
            items := some (updateAssoc items I { d with location := "inventory" }) }
          game_state := { g.game_state with
            collected_items := setAdd g.game_state.collected_items I } } := by
    simp [take, hne, hitems, hfind, hloc]
  have hdropmem : I ∈ g.inventory ++ [I] := by simp
  rw [htake]
  simp only [drop, if_neg hne, hdropmem, not_true_eq_false, if_false, herase,
    hlookup1]
  refine ⟨trivial, hinv, trivial, _, rfl, ?_⟩
  have hs2 := lookup_updateAssoc_self
    (updateAssoc items I { d with location := "inventory" }) I
    { d with location := g.current_location } hs1
  exact ⟨{ d with location := g.current_location }, hs2, rfl⟩

/-- Witness data: the loaded items map at the market. -/
def itemsB : List (String × ItemData) :=
  [("crystal", { description := "A shiny crystal.", location := "market" })]

/-- Witness record for the crystal. -/
def itemB : ItemData := { description := "A shiny crystal.", location := "market" }

/-- Witness for C8 at the market with the crystal. -/
theorem c8_take_drop_roundtrip_witness :
    ("crystal" : String) ≠ "" ∧
    gB.game_data.items = some itemsB ∧
    List.lookup "crystal" itemsB = some itemB ∧
    itemB.location = gB.current_location ∧
    "crystal" ∉ gB.inventory ∧
    ((drop (take gB "crystal").1 "crystal").1.inventory = gB.inventory ∧
     "crystal" ∉ (drop (take gB "crystal").1 "crystal").1.inventory ∧
     (drop (take gB "crystal").1 "crystal").1.inventory.length =
       gB.inventory.length ∧
     ∃ items2,
       (drop (take gB "crystal").1 "crystal").1.game_data.items = some items2 ∧
       ∃ d2, List.lookup "crystal" items2 = some d2 ∧
         d2.location = gB.current_location) :=
  ⟨by decide, by decide, by decide, by decide, by decide,
    c8_take_drop_roundtrip gB "crystal" itemsB itemB (by decide) (by decide)
      (by decide) (by decide) (by decide)⟩

/-- Claim C9: move changes the current location only when the direction is
a key of the current location's exits mapping; when it is not (with the
locations category loaded, as in every booted session), the call returns
the state entirely unchanged together with the can't-go message. -/
theorem c9_move_frame (store : ContentStore) (g : Game) (d : String) :
    (∀ locs, g.game_data.locations = some locs →
      List.lookup d ((List.lookup g.current_location locs).getD {}).exits = none →
      move store g d = (g, .ok ["\nYou can't go that way."])) ∧
    ((move store g d).1.current_location ≠ g.current_location →
      ∃ locs target, g.game_data.locations = some locs ∧
        List.lookup d ((List.lookup g.current_location locs).getD {}).exits =
          some target) := by
  constructor
  · intro locs hlocs hexit
    unfold move
    rw [hlocs]
    simp [hexit]
  · intro hne
    unfold move at hne
    cases hlocs : g.game_data.locations with
    | none => rw [hlocs] at hne; simp at hne
    | some locs =>
      rw [hlocs] at hne
      cases hexit : List.lookup d
          ((List.lookup g.current_location locs).getD {}).exits with
      | none =>
        simp only [hexit] at hne
        exact absurd rfl hne
      | some target => exact ⟨locs, target, rfl, hexit⟩

/-- Witness data: the loaded locations map of the fresh session. -/
def locsA : List (String × LocationData) :=
  [("start", { description := "The town square.", exits := [("north", "market")] })]

/-- Witness for C9: "up" is not an exit of "start", so move is the
identity on the session state. -/
theorem c9_move_frame_witness :
    gA.game_data.locations = some locsA ∧
    List.lookup "up" ((List.lookup gA.current_location locsA).getD {}).exits = none ∧
    move store2 gA "up" = (gA, .ok ["\nYou can't go that way."]) :=
  ⟨by decide, by decide,
    (c9_move_frame store2 gA "up").1 locsA (by decide) (by decide)⟩

/-! ## Analyzer memoization (C10) -/

/-- Claim C10: for every analyzer state and text, the second of two
successive analyze_command calls returns the identical Analysis value,
leaves the analyzer state (cache and all) exactly as after the first
call, and performs no backend invocation. -/
theorem c10_analyze_memoized (ai : GameAI) (cmd : String) :
    analyze_command (analyze_command ai cmd).2.1 cmd =
      ((analyze_command ai cmd).1, (analyze_command ai cmd).2.1, false) := by
  unfold analyze_command
  cases h : List.lookup ("cmd_" ++ cmd) ai.cmdCache with
  | some a => simp [h]
  | none =>
    cases hn : ai.nlp with
    | none => simp [h, hn, List.lookup_cons]
    | some b => simp [h, hn, List.lookup_cons]

end Shmoopland
